import Mathlib

/-!
Shallow embedding of the column-role classification and fulfillment-rule
logic of the Neubau ERP Excel analysis scripts
(`excel_analyzer.py`, `analyze_excel_files.py`, `analyze_with_openpyxl.py`).

Cell values are {null, number, text, date}; numbers are modelled as
rationals.  Python runtime faults (TypeError from comparing text with 0,
ZeroDivisionError from percentage computation on an empty frame) are
modelled with `Except PyError`.
-/

namespace ExcelAnalysis

/-- A cell value of a loaded spreadsheet: absent, numeric, text, or date. -/
inductive Value where
  | null : Value
  | num (q : ℚ) : Value
  | text (s : String) : Value
  | date (d : Nat) : Value
deriving DecidableEq

/-- Python runtime faults that the scripts can hit while evaluating the rule. -/
inductive PyError where
  | typeError : PyError
  | zeroDivisionError : PyError
deriving DecidableEq

/-- The statistics record printed for the `QuantityRem1` business rule. -/
structure RuleFinding where
  zeroCount : Nat
  positiveCount : Nat
  total : Nat
  percentZero : ℚ
  percentPositive : ℚ
deriving DecidableEq

/-- Equality of fallible results is decidable, so concrete runs can be
checked by evaluation. -/
instance instExceptDecEq {ε α : Type} [DecidableEq ε] [DecidableEq α] :
    DecidableEq (Except ε α) := fun a b =>
  match a, b with
  | Except.ok x, Except.ok y =>
    if h : x = y then isTrue (by rw [h])
    else isFalse (fun he => h (Except.ok.inj he))
  | Except.error x, Except.error y =>
    if h : x = y then isTrue (by rw [h])
    else isFalse (fun he => h (Except.error.inj he))
  | Except.ok _, Except.error _ => isFalse (fun he => Except.noConfusion he)
  | Except.error _, Except.ok _ => isFalse (fun he => Except.noConfusion he)

/-- In-memory representation of one loaded spreadsheet: ordered column
names plus rows of positional cell values. -/
structure TabularDataset where
  columns : List String
  rows : List (List Value)

/-- The five semantic roles the scripts scan column names for. -/
inductive SemanticRole where
  | articleNumber : SemanticRole
  | projectNumber : SemanticRole
  | quantity : SemanticRole
  | date : SemanticRole
  | status : SemanticRole
deriving DecidableEq, BEq

/-- Boolean test that `pat` is a prefix of the character list. -/
def prefixChars : List Char → List Char → Bool
  | [], _ => true
  | _ :: _, [] => false
  | a :: as, b :: bs => a == b && prefixChars as bs

/-- Boolean test that `pat` occurs contiguously inside the character list
(Python `pat in hay`). -/
def subChars (pat : List Char) : List Char → Bool
  | [] => prefixChars pat []
  | c :: rest => prefixChars pat (c :: rest) || subChars pat rest

/-- Python `str.lower()` of a column name, as its character list. -/
def lowerChars (s : String) : List Char :=
  s.toList.map Char.toLower

/-- Python `pat in hay.lower()`: case-insensitive substring containment
of a (lowercase) keyword in a column name. -/
def containsSub (hay pat : String) : Bool :=
  subChars pat.toList (lowerChars hay)

/-- Keyword sets of `excel_analyzer.py` `analyze_with_pandas`
(lines 89-132), one set per semantic role. -/
def keywordsFor : SemanticRole → List String
  | SemanticRole.articleNumber => ["art", "item", "artikel", "material", "nummer"]
  | SemanticRole.projectNumber => ["proj", "project", "auftrag", "order"]
  | SemanticRole.quantity => ["qty", "quantity", "menge", "anzahl", "rem"]
  | SemanticRole.date => ["date", "datum", "termin", "deadline"]
  | SemanticRole.status => ["status", "state", "zustand"]

/-- Keyword sets of `analyze_excel_files.py` (lines 41-63); note the
reduced sets: no "nummer", no "order", no "rem", no "deadline". -/
def afKeywordsFor : SemanticRole → List String
  | SemanticRole.articleNumber => ["art", "item", "artikel", "material"]
  | SemanticRole.projectNumber => ["proj", "project", "auftrag"]
  | SemanticRole.quantity => ["qty", "quantity", "menge", "anzahl"]
  | SemanticRole.date => ["date", "datum", "termin"]
  | SemanticRole.status => ["status", "state", "zustand"]

/-- `any(x in str(col).lower() for x in keywords)`. -/
def matchesKeywords (kws : List String) (col : String) : Bool :=
  kws.any (fun x => containsSub col x)

/-- `[col for col in df.columns if any(x in str(col).lower() for x in ...)]`
with the full keyword sets of `analyze_with_pandas`. -/
def candidatesEA (cols : List String) (r : SemanticRole) : List String :=
  cols.filter (fun col => matchesKeywords (keywordsFor r) col)

/-- The candidate comprehension of `analyze_excel_files.py` with its
reduced keyword sets. -/
def candidatesAF (cols : List String) (r : SemanticRole) : List String :=
  cols.filter (fun col => matchesKeywords (afKeywordsFor r) col)

/-- The chosen column for a role: the first candidate
(`article_candidates[0]` in the recommendations block). -/
def chosenEA (cols : List String) (r : SemanticRole) : Option String :=
  (candidatesEA cols r).head?

/-- The five roles handled by the pandas path, in source order. -/
def allRoles : List SemanticRole :=
  [SemanticRole.articleNumber, SemanticRole.projectNumber, SemanticRole.quantity,
   SemanticRole.date, SemanticRole.status]

/-- Classification mapping of the pandas path: every role paired with its
candidate list. -/
def classifyEA (cols : List String) : List (SemanticRole × List String) :=
  allRoles.map (fun r => (r, candidatesEA cols r))

/-- Classification mapping of `excel_analyzer.py` `analyze_with_openpyxl`
(lines 220-227): only four role scans appear there, the Status scan is
missing, and the comprehensions guard with `if col and any(...)`. -/
def classifyOpxEA (cols : List String) : List (SemanticRole × List String) :=
  [(SemanticRole.articleNumber,
     cols.filter (fun col => !(col == "") && matchesKeywords ["art", "item", "artikel", "material"] col)),
   (SemanticRole.projectNumber,
     cols.filter (fun col => !(col == "") && matchesKeywords ["proj", "project", "auftrag"] col)),
   (SemanticRole.quantity,
     cols.filter (fun col => !(col == "") && matchesKeywords ["qty", "quantity", "menge", "anzahl", "rem"] col)),
   (SemanticRole.date,
     cols.filter (fun col => !(col == "") && matchesKeywords ["date", "datum", "termin"] col))]

/-- Candidate computation at dataset level: the comprehensions read only
`df.columns`, never the row values. -/
def classifyDS (ds : TabularDataset) (r : SemanticRole) : List String :=
  candidatesEA ds.columns r

/-- Numeric entries of a column (the values pandas aggregates over,
skipping nulls). -/
def numericEntries (vals : List Value) : List ℚ :=
  vals.filterMap (fun v => match v with | Value.num q => some q | _ => none)

/-- Advisory `df[col].min()` over non-null numeric values. -/
def colMin (vals : List Value) : Option ℚ := (numericEntries vals).min?

/-- Advisory `df[col].max()` over non-null numeric values. -/
def colMax (vals : List Value) : Option ℚ := (numericEntries vals).max?

/-- Advisory `df[col].mean()` over non-null numeric values. -/
def colMean (vals : List Value) : Option ℚ :=
  let qs := numericEntries vals
  if qs.length = 0 then none else some (qs.sum / (qs.length : ℚ))

/-- Values of a named column: first matching header position, missing
positional slots read as null. -/
def columnValues (ds : TabularDataset) (name : String) : List Value :=
  match ds.columns.findIdx? (fun c => c == name) with
  | some i => ds.rows.map (fun r => r.getD i Value.null)
  | none => []

/-- Elementwise `value == 0` (Python equality with 0 never raises;
only a number equal to 0 compares true). -/
def seriesEqZeroB (v : Value) : Bool :=
  match v with
  | Value.num q => q == 0
  | _ => false

/-- Elementwise `value > 0` as pandas evaluates it on a column:
NaN/null compares false, a number compares by sign, and text or date
raises TypeError. -/
def seriesGtZeroB (v : Value) : Except PyError Bool :=
  match v with
  | Value.null => Except.ok false
  | Value.num q => Except.ok (decide (0 < q))
  | Value.text _ => Except.error PyError.typeError
  | Value.date _ => Except.error PyError.typeError

/-- `len(df[df[col] > 0])`: the count of elementwise-true comparisons,
faulting if any element comparison faults. -/
def posCountE : List Value → Except PyError Nat
  | [] => Except.ok 0
  | v :: vs =>
    match seriesGtZeroB v, posCountE vs with
    | Except.ok b, Except.ok n => Except.ok (if b then n + 1 else n)
    | Except.error e, _ => Except.error e
    | Except.ok _, Except.error e => Except.error e

/-- The fulfillment-rule statistics of `analyze_with_pandas`
(lines 145-151): `zero_count`, `non_zero_count`, `total`, then the two
percentages `count/total*100` — the division is unguarded, so an empty
frame raises ZeroDivisionError. -/
def evalFulfillment (vals : List Value) : Except PyError RuleFinding :=
  match posCountE vals with
  | Except.error e => Except.error e
  | Except.ok pos =>
    let zc := (vals.filter seriesEqZeroB).length
    let total := vals.length
    if total = 0 then Except.error PyError.zeroDivisionError
    else Except.ok ⟨zc, pos, total,
      (zc : ℚ) / (total : ℚ) * 100, (pos : ℚ) / (total : ℚ) * 100⟩

/-- The rule as a whole: fires exactly when a column named `QuantityRem1`
is present (`if 'QuantityRem1' in df.columns`), otherwise no finding. -/
def fulfillmentRule (ds : TabularDataset) : Option (Except PyError RuleFinding) :=
  if "QuantityRem1" ∈ ds.columns then
    some (evalFulfillment (columnValues ds "QuantityRem1"))
  else none

/-- Counting loop of `analyze_with_openpyxl.py` (lines 90-98):
`if cell_value == 0` bumps the zero bucket, `elif cell_value and
cell_value > 0` bumps the positive bucket — a falsy value (None, 0, empty
text) short-circuits, a truthy non-numeric raises TypeError. -/
def opxLoop : Nat → Nat → List Value → Except PyError (Nat × Nat)
  | z, p, [] => Except.ok (z, p)
  | z, p, v :: vs =>
    match v with
    | Value.num q =>
        if q = 0 then opxLoop (z + 1) p vs
        else if 0 < q then opxLoop z (p + 1) vs
        else opxLoop z p vs
    | Value.null => opxLoop z p vs
    | Value.text s => if s = "" then opxLoop z p vs else Except.error PyError.typeError
    | Value.date _ => Except.error PyError.typeError

/-- `range(2, min(1000, sheet.max_row + 1))` visits at most the first 998
data rows. -/
def opxSampleBound : Nat := 998

/-- The sampled zero/positive counts of the standalone openpyxl script. -/
def opxCounts (vals : List Value) : Except PyError (Nat × Nat) :=
  opxLoop 0 0 (vals.take opxSampleBound)

/-- Value is a number with the given sign used by the positive bucket. -/
def isPosB (v : Value) : Bool :=
  match v with
  | Value.num q => decide (0 < q)
  | _ => false

/-- Value is numeric or null (the shapes on which the pandas comparison
`> 0` does not raise). -/
def numOrNull (v : Value) : Bool :=
  match v with
  | Value.null => true
  | Value.num _ => true
  | _ => false

/-- Row falls in neither bucket although it counts toward the total:
null or strictly negative. -/
def notCountedB (v : Value) : Bool :=
  match v with
  | Value.null => true
  | Value.num q => decide (q < 0)
  | _ => false

/-- Value is present and numerically 0 or strictly positive. -/
def presentNonneg (v : Value) : Bool :=
  match v with
  | Value.num q => decide (0 ≤ q)
  | _ => false

/-- The two-row scenario dataset of the spec's testable properties. -/
def scenarioDS : TabularDataset :=
  ⟨["ArtikelNr", "QuantityRem1", "Status"],
   [[Value.text "A1", Value.num 0, Value.text "closed"],
    [Value.text "A2", Value.num 5, Value.text "open"]]⟩

/-- Successful elementwise `> 0` counting: the count is the number of
strictly positive numeric entries, and success forces every entry to be
numeric or null. -/
theorem posCountE_ok (vals : List Value) (n : Nat)
    (h : posCountE vals = Except.ok n) :
    n = (vals.filter isPosB).length ∧ ∀ v ∈ vals, numOrNull v = true := by
  induction vals generalizing n with
  | nil =>
    simp [posCountE] at h
    simp [h]
  | cons v vs ih =>
    cases v with
    | null =>
      cases hvs : posCountE vs with
      | error e => simp [posCountE, seriesGtZeroB, hvs] at h
      | ok m =>
        simp [posCountE, seriesGtZeroB, hvs] at h
        rcases ih m hvs with ⟨h1, h2⟩
        subst h
        refine ⟨by simp [List.filter_cons, isPosB, h1], ?_⟩
        intro w hw
        rcases List.mem_cons.mp hw with rfl | hw
        · rfl
        · exact h2 w hw
    | num q =>
      cases hvs : posCountE vs with
      | error e => simp [posCountE, seriesGtZeroB, hvs] at h
      | ok m =>
        simp [posCountE, seriesGtZeroB, hvs] at h
        rcases ih m hvs with ⟨h1, h2⟩
        subst h1
        constructor
        · by_cases hq : 0 < q <;>
            simp [List.filter_cons, isPosB, hq] at h ⊢ <;> omega
        · intro w hw
          rcases List.mem_cons.mp hw with rfl | hw
          · rfl
          · exact h2 w hw
    | text s => simp [posCountE, seriesGtZeroB] at h
    | date d => simp [posCountE, seriesGtZeroB] at h

/-- On a column of numeric-or-null entries the elementwise comparison
never faults and counts exactly the strictly positive entries. -/
theorem posCountE_clean (vals : List Value)
    (h : ∀ v ∈ vals, numOrNull v = true) :
    posCountE vals = Except.ok ((vals.filter isPosB).length) := by
  induction vals with
  | nil => simp [posCountE]
  | cons v vs ih =>
    have hv := h v (List.mem_cons_self v vs)
    have hvs : ∀ w ∈ vs, numOrNull w = true :=
      fun w hw => h w (List.mem_cons_of_mem v hw)
    cases v with
    | null => simp [posCountE, seriesGtZeroB, ih hvs, List.filter_cons, isPosB]
    | num q =>
      by_cases hq : 0 < q <;>
        simp [posCountE, seriesGtZeroB, ih hvs, List.filter_cons, isPosB, hq]
    | text s => simp [numOrNull] at hv
    | date d => simp [numOrNull] at hv

/-- A value lands in the zero bucket or the positive bucket exactly when
it is present and numerically at least 0. -/
theorem eqZero_or_pos (v : Value) :
    (seriesEqZeroB v || isPosB v) = presentNonneg v := by
  cases v with
  | null => rfl
  | text s => rfl
  | date d => rfl
  | num q =>
    by_cases h0 : q = 0
    · subst h0; simp [seriesEqZeroB, isPosB, presentNonneg]
    · by_cases hp : 0 < q
      · simp [seriesEqZeroB, isPosB, presentNonneg, h0, hp, le_of_lt hp]
      · have hneg : ¬ 0 ≤ q := fun hle =>
          h0 (le_antisymm (not_lt.mp hp) hle)
        simp [seriesEqZeroB, isPosB, presentNonneg, h0, hp, hneg]

/-- No value lands in both buckets. -/
theorem eqZero_pos_disjoint (v : Value) :
    seriesEqZeroB v = true → isPosB v = true → False := by
  cases v with
  | null => intro h1 _; simp [seriesEqZeroB] at h1
  | text s => intro h1 _; simp [seriesEqZeroB] at h1
  | date d => intro h1 _; simp [seriesEqZeroB] at h1
  | num q =>
    intro h1 h2
    simp [seriesEqZeroB] at h1
    simp [isPosB] at h2
    rw [h1] at h2
    exact lt_irrefl 0 h2

/-- The two buckets never exceed the row count, with equality exactly when
every entry is present and numerically 0 or positive. -/
theorem two_filter_le_iff (l : List Value) :
    (l.filter seriesEqZeroB).length + (l.filter isPosB).length ≤ l.length ∧
    (((l.filter seriesEqZeroB).length + (l.filter isPosB).length = l.length) ↔
      l.all presentNonneg = true) := by
  induction l with
  | nil => simp
  | cons v vs ih =>
    rcases ih with ⟨ih1, ih2⟩
    have hv := eqZero_or_pos v
    cases hz : seriesEqZeroB v <;> cases hp : isPosB v
    · have e1 : List.filter seriesEqZeroB (v :: vs) = List.filter seriesEqZeroB vs := by
        simp [List.filter_cons, hz]
      have e2 : List.filter isPosB (v :: vs) = List.filter isPosB vs := by
        simp [List.filter_cons, hp]
      have e3 : (v :: vs).all presentNonneg = false := by
        simp [List.all_cons, ← hv, hz, hp]
      rw [e1, e2, e3]
      simp only [List.length_cons, Bool.false_eq_true, iff_false]
      omega
    · have e1 : List.filter seriesEqZeroB (v :: vs) = List.filter seriesEqZeroB vs := by
        simp [List.filter_cons, hz]
      have e2 : List.filter isPosB (v :: vs) = v :: List.filter isPosB vs := by
        simp [List.filter_cons, hp]
      have e3 : (v :: vs).all presentNonneg = vs.all presentNonneg := by
        simp [List.all_cons, ← hv, hz, hp]
      rw [e1, e2, e3, ← ih2]
      simp only [List.length_cons]
      omega
    · have e1 : List.filter seriesEqZeroB (v :: vs) = v :: List.filter seriesEqZeroB vs := by
        simp [List.filter_cons, hz]
      have e2 : List.filter isPosB (v :: vs) = List.filter isPosB vs := by
        simp [List.filter_cons, hp]
      have e3 : (v :: vs).all presentNonneg = vs.all presentNonneg := by
        simp [List.all_cons, ← hv, hz, hp]
      rw [e1, e2, e3, ← ih2]
      simp only [List.length_cons]
      omega
    · exact (eqZero_pos_disjoint v hz hp).elim

/-- On numeric-or-null entries, the zero bucket, the positive bucket and
the not-counted entries (null or negative) partition the rows. -/
theorem zero_pos_neg_partition (l : List Value)
    (h : ∀ v ∈ l, numOrNull v = true) :
    (l.filter seriesEqZeroB).length + (l.filter isPosB).length +
      (l.filter notCountedB).length = l.length := by
  induction l with
  | nil => simp
  | cons v vs ih =>
    have hv := h v (List.mem_cons_self v vs)
    have hvs : ∀ w ∈ vs, numOrNull w = true :=
      fun w hw => h w (List.mem_cons_of_mem v hw)
    have ih := ih hvs
    cases v with
    | null =>
      have e1 : List.filter seriesEqZeroB (Value.null :: vs) = List.filter seriesEqZeroB vs := by
        simp [List.filter_cons, seriesEqZeroB]
      have e2 : List.filter isPosB (Value.null :: vs) = List.filter isPosB vs := by
        simp [List.filter_cons, isPosB]
      have e3 : List.filter notCountedB (Value.null :: vs) =
          Value.null :: List.filter notCountedB vs := by
        simp [List.filter_cons, notCountedB]
      rw [e1, e2, e3]
      simp only [List.length_cons]
      omega
    | num q =>
      rcases lt_trichotomy q 0 with hq | hq | hq
      · have e1 : List.filter seriesEqZeroB (Value.num q :: vs) =
            List.filter seriesEqZeroB vs := by
          simp [List.filter_cons, seriesEqZeroB, hq.ne]
        have e2 : List.filter isPosB (Value.num q :: vs) = List.filter isPosB vs := by
          simp [List.filter_cons, isPosB, not_lt.mpr hq.le]
        have e3 : List.filter notCountedB (Value.num q :: vs) =
            Value.num q :: List.filter notCountedB vs := by
          simp [List.filter_cons, notCountedB, hq]
        rw [e1, e2, e3]
        simp only [List.length_cons]
        omega
      · subst hq
        have e1 : List.filter seriesEqZeroB (Value.num 0 :: vs) =
            Value.num 0 :: List.filter seriesEqZeroB vs := by
          simp [List.filter_cons, seriesEqZeroB]
        have e2 : List.filter isPosB (Value.num 0 :: vs) = List.filter isPosB vs := by
          simp [List.filter_cons, isPosB]
        have e3 : List.filter notCountedB (Value.num 0 :: vs) =
            List.filter notCountedB vs := by
          simp [List.filter_cons, notCountedB]
        rw [e1, e2, e3]
        simp only [List.length_cons]
        omega
      · have e1 : List.filter seriesEqZeroB (Value.num q :: vs) =
            List.filter seriesEqZeroB vs := by
          simp [List.filter_cons, seriesEqZeroB, hq.ne.symm]
        have e2 : List.filter isPosB (Value.num q :: vs) =
            Value.num q :: List.filter isPosB vs := by
          simp [List.filter_cons, isPosB, hq]
        have e3 : List.filter notCountedB (Value.num q :: vs) =
            List.filter notCountedB vs := by
          simp [List.filter_cons, notCountedB, not_lt.mpr hq.le]
        rw [e1, e2, e3]
        simp only [List.length_cons]
        omega
    | text s => simp [numOrNull] at hv
    | date d => simp [numOrNull] at hv

/-- Anatomy of a successful fulfillment-rule evaluation: every field of
the finding in terms of the column values, plus the facts forced by
success (non-empty column, no text or date entries). -/
theorem evalFulfillment_ok (vals : List Value) (f : RuleFinding)
    (h : evalFulfillment vals = Except.ok f) :
    f.zeroCount = (vals.filter seriesEqZeroB).length ∧
    f.positiveCount = (vals.filter isPosB).length ∧
    f.total = vals.length ∧ 0 < vals.length ∧
    f.percentZero = (f.zeroCount : ℚ) / (f.total : ℚ) * 100 ∧
    f.percentPositive = (f.positiveCount : ℚ) / (f.total : ℚ) * 100 ∧
    ∀ v ∈ vals, numOrNull v = true := by
  cases hp : posCountE vals with
  | error e => simp [evalFulfillment, hp] at h
  | ok pos =>
    rcases posCountE_ok vals pos hp with ⟨hpos, hclean⟩
    by_cases h0 : vals.length = 0
    · simp [evalFulfillment, hp, h0] at h
    · simp [evalFulfillment, hp, h0] at h
      subst h
      exact ⟨rfl, hpos, rfl, Nat.pos_of_ne_zero h0, rfl, rfl, hclean⟩

/-- The openpyxl counting loop over a block of zero-valued rows adds the
block length to the zero bucket. -/
theorem opxLoop_zero_replicate (n z p : Nat) :
    opxLoop z p (List.replicate n (Value.num 0)) = Except.ok (z + n, p) := by
  induction n generalizing z with
  | zero => simp [opxLoop]
  | succ m ih =>
    rw [List.replicate_succ]
    simp only [opxLoop, if_pos rfl]
    rw [ih]
    have hz : z + 1 + m = z + (m + 1) := by omega
    simp [hz]

/-- Claim C1, counterexample: on a dataset that has the sentinel column
but zero rows the rule does not complete with percentZero =
percentPositive = 0 — the unguarded `zero_count/total*100` division
raises ZeroDivisionError, so no finding is produced. -/
theorem empty_dataset_division_fault :
    fulfillmentRule ⟨["QuantityRem1"], []⟩ =
      some (Except.error PyError.zeroDivisionError) := rfl

/-- Claim C1, amended: whenever the fulfillment evaluation completes, the
total is positive and percentZero and percentPositive equal zeroCount and
positiveCount divided by total, expressed as percentages; a dataset with
the sentinel column and zero rows instead faults on the division. -/
theorem percent_formula_pos_total (vals : List Value) (f : RuleFinding)
    (h : evalFulfillment vals = Except.ok f) :
    0 < f.total ∧
    f.percentZero = (f.zeroCount : ℚ) / (f.total : ℚ) * 100 ∧
    f.percentPositive = (f.positiveCount : ℚ) / (f.total : ℚ) * 100 := by
  rcases evalFulfillment_ok vals f h with ⟨-, -, ht, hpos, hz, hp, -⟩
  exact ⟨by rw [ht]; exact hpos, hz, hp⟩

/-- Concrete instantiation of `percent_formula_pos_total` on a one-row
column holding 5. -/
theorem percent_formula_pos_total_witness :
    0 < (⟨0, 1, 1, 0, 100⟩ : RuleFinding).total ∧
    (⟨0, 1, 1, 0, 100⟩ : RuleFinding).percentZero =
      ((⟨0, 1, 1, 0, 100⟩ : RuleFinding).zeroCount : ℚ) /
        ((⟨0, 1, 1, 0, 100⟩ : RuleFinding).total : ℚ) * 100 ∧
    (⟨0, 1, 1, 0, 100⟩ : RuleFinding).percentPositive =
      ((⟨0, 1, 1, 0, 100⟩ : RuleFinding).positiveCount : ℚ) /
        ((⟨0, 1, 1, 0, 100⟩ : RuleFinding).total : ℚ) * 100 :=
  percent_formula_pos_total [Value.num 5] ⟨0, 1, 1, 0, 100⟩
    (by norm_num [evalFulfillment, posCountE, seriesGtZeroB, seriesEqZeroB])

/-- Claim C2, counterexample: the standalone openpyxl script caps its
bucket counts at the first 998 data rows — on a sentinel column of 999
zero-valued rows it counts only 998 of them, excluding the last row by
position. -/
theorem opx_sampling_excludes_row :
    opxCounts (List.replicate 999 (Value.num 0)) = Except.ok (998, 0) ∧
    (List.replicate 999 (Value.num 0)).length = 999 := by
  constructor
  · show opxLoop 0 0 ((List.replicate 999 (Value.num 0)).take opxSampleBound) = _
    rw [List.take_replicate]
    have hmin : min opxSampleBound 999 = 998 := by norm_num [opxSampleBound]
    rw [hmin]
    have h := opxLoop_zero_replicate 998 0 0
    rwa [Nat.zero_add] at h
  · exact List.length_replicate _ _

/-- Claim C2, amended: in the pandas path a produced finding counts over
every row — total is the full row count and the zero/positive buckets
scan all rows, nulls and negatives landing in neither bucket; the
openpyxl path's counts instead read only the first `opxSampleBound`
(998) data rows. -/
theorem fulfillment_counts_full_scan (vals vs : List Value) (f : RuleFinding)
    (h : evalFulfillment vals = Except.ok f) :
    f.total = vals.length ∧
    f.zeroCount = (vals.filter seriesEqZeroB).length ∧
    f.positiveCount = (vals.filter isPosB).length ∧
    opxCounts vs = opxCounts (vs.take opxSampleBound) := by
  rcases evalFulfillment_ok vals f h with ⟨h1, h2, h3, -, -, -, -⟩
  refine ⟨h3, h1, h2, ?_⟩
  unfold opxCounts
  rw [List.take_take, Nat.min_self]

/-- Concrete instantiation of `fulfillment_counts_full_scan` on a
two-row column. -/
theorem fulfillment_counts_full_scan_witness :
    (⟨1, 1, 2, 50, 50⟩ : RuleFinding).total = [Value.num 0, Value.num 5].length ∧
    (⟨1, 1, 2, 50, 50⟩ : RuleFinding).zeroCount =
      ([Value.num 0, Value.num 5].filter seriesEqZeroB).length ∧
    (⟨1, 1, 2, 50, 50⟩ : RuleFinding).positiveCount =
      ([Value.num 0, Value.num 5].filter isPosB).length ∧
    opxCounts [Value.num 3] = opxCounts ([Value.num 3].take opxSampleBound) :=
  fulfillment_counts_full_scan [Value.num 0, Value.num 5] [Value.num 3]
    ⟨1, 1, 2, 50, 50⟩
    (by norm_num [evalFulfillment, posCountE, seriesGtZeroB, seriesEqZeroB])

/-- Claim C3, counterexample: rule evaluation is not total — a row whose
sentinel-column value is text makes the elementwise `> 0` comparison
raise TypeError, so evaluation aborts and produces no finding. -/
theorem text_value_type_fault :
    fulfillmentRule ⟨["QuantityRem1"], [[Value.text "abc"]]⟩ =
      some (Except.error PyError.typeError) := rfl

/-- Claim C3, amended: on a non-empty sentinel column whose values are
all numeric or null, evaluation completes and produces the finding, with
every row counting toward total and null or negative rows counting
toward neither bucket; a text or date value instead aborts evaluation
with TypeError (and an empty column faults on the division). -/
theorem eval_total_without_text (vals : List Value) (hne : vals ≠ [])
    (hclean : vals.all numOrNull = true) :
    evalFulfillment vals =
      Except.ok ⟨(vals.filter seriesEqZeroB).length, (vals.filter isPosB).length,
        vals.length,
        ((vals.filter seriesEqZeroB).length : ℚ) / (vals.length : ℚ) * 100,
        ((vals.filter isPosB).length : ℚ) / (vals.length : ℚ) * 100⟩ ∧
    (vals.filter seriesEqZeroB).length + (vals.filter isPosB).length +
      (vals.filter notCountedB).length = vals.length := by
  have hcl : ∀ v ∈ vals, numOrNull v = true := by simpa using hclean
  have h0 : vals.length ≠ 0 := fun hlen => hne (List.length_eq_zero.mp hlen)
  constructor
  · simp [evalFulfillment, posCountE_clean vals hcl, h0]
  · exact zero_pos_neg_partition vals hcl

/-- Concrete instantiation of `eval_total_without_text` on a column with
a null, a negative, a zero and a positive value. -/
theorem eval_total_without_text_witness :
    evalFulfillment [Value.null, Value.num (-1), Value.num 0, Value.num 2] =
      Except.ok ⟨([Value.null, Value.num (-1), Value.num 0, Value.num 2].filter seriesEqZeroB).length,
        ([Value.null, Value.num (-1), Value.num 0, Value.num 2].filter isPosB).length,
        [Value.null, Value.num (-1), Value.num 0, Value.num 2].length,
        (([Value.null, Value.num (-1), Value.num 0, Value.num 2].filter seriesEqZeroB).length : ℚ) /
          ([Value.null, Value.num (-1), Value.num 0, Value.num 2].length : ℚ) * 100,
        (([Value.null, Value.num (-1), Value.num 0, Value.num 2].filter isPosB).length : ℚ) /
          ([Value.null, Value.num (-1), Value.num 0, Value.num 2].length : ℚ) * 100⟩ ∧
    ([Value.null, Value.num (-1), Value.num 0, Value.num 2].filter seriesEqZeroB).length +
      ([Value.null, Value.num (-1), Value.num 0, Value.num 2].filter isPosB).length +
      ([Value.null, Value.num (-1), Value.num 0, Value.num 2].filter notCountedB).length =
      [Value.null, Value.num (-1), Value.num 0, Value.num 2].length :=
  eval_total_without_text [Value.null, Value.num (-1), Value.num 0, Value.num 2]
    (by simp) rfl

/-- Claim C4, counterexample: `analyze_excel_files.py` does not use the
full Quantity keyword set — the keyword "rem" is absent there, so the
column "Rem1" is not among its Quantity candidates although "rem" is a
Quantity keyword and a case-insensitive substring of the name. -/
theorem af_rem_keyword_missing :
    candidatesAF ["Rem1"] SemanticRole.quantity = [] ∧
    "rem" ∈ keywordsFor SemanticRole.quantity ∧
    containsSub "Rem1" "rem" = true := by
  refine ⟨by decide, ?_, by decide⟩
  simp [keywordsFor]

/-- Claim C4, amended: in `excel_analyzer.py`'s pandas classifier, any
column containing a keyword of the role's full set as a case-insensitive
substring appears in that role's candidates; `analyze_excel_files.py`
gives the same guarantee only for its reduced keyword sets (which omit
"nummer", "order", "rem" and "deadline"). -/
theorem keyword_substring_in_candidates (cols : List String) (r : SemanticRole)
    (kw col : String) (hkw : kw ∈ keywordsFor r) (hcol : col ∈ cols)
    (hm : containsSub col kw = true) :
    col ∈ candidatesEA cols r ∧
    (kw ∈ afKeywordsFor r → col ∈ candidatesAF cols r) := by
  constructor
  · have hmk : matchesKeywords (keywordsFor r) col = true := by
      unfold matchesKeywords
      exact List.any_eq_true.mpr ⟨kw, hkw, hm⟩
    exact List.mem_filter.mpr ⟨hcol, hmk⟩
  · intro hkw2
    have hmk : matchesKeywords (afKeywordsFor r) col = true := by
      unfold matchesKeywords
      exact List.any_eq_true.mpr ⟨kw, hkw2, hm⟩
    exact List.mem_filter.mpr ⟨hcol, hmk⟩

/-- Concrete instantiation of `keyword_substring_in_candidates` on the
column "ARTIKEL_NR" and the ArticleNumber keyword "artikel". -/
theorem keyword_substring_in_candidates_witness :
    "ARTIKEL_NR" ∈ candidatesEA ["ARTIKEL_NR"] SemanticRole.articleNumber ∧
    ("artikel" ∈ afKeywordsFor SemanticRole.articleNumber →
      "ARTIKEL_NR" ∈ candidatesAF ["ARTIKEL_NR"] SemanticRole.articleNumber) :=
  keyword_substring_in_candidates ["ARTIKEL_NR"] SemanticRole.articleNumber
    "artikel" "ARTIKEL_NR" (by simp [keywordsFor]) (by simp) (by decide)

/-- Claim C5, counterexample: the openpyxl fallback path inside
`excel_analyzer.py` skips the Status role — even when a column named
"Status" is present its classification has no Status entry, while the
pandas classifier does list it. -/
theorem opx_path_skips_status_role :
    (classifyOpxEA ["Status"]).lookup SemanticRole.status = none ∧
    (classifyEA ["Status"]).lookup SemanticRole.status = some ["Status"] :=
  ⟨by decide, by decide⟩

/-- Claim C5, amended: the pandas classification path produces an entry
(possibly with empty candidates) for every one of the five semantic
roles; the openpyxl fallback in `excel_analyzer.py` computes entries only
for ArticleNumber, ProjectNumber, Quantity and Date — its mapping never
contains a Status entry. -/
theorem classify_entry_every_role (cols : List String) (r : SemanticRole) :
    (classifyEA cols).lookup r = some (candidatesEA cols r) ∧
    (classifyOpxEA cols).lookup SemanticRole.status = none := by
  cases r <;> exact ⟨rfl, rfl⟩

/-- Concrete instantiation of `classify_entry_every_role` on an empty
column list and the Quantity role. -/
theorem classify_entry_every_role_witness :
    (classifyEA []).lookup SemanticRole.quantity =
      some (candidatesEA [] SemanticRole.quantity) ∧
    (classifyOpxEA []).lookup SemanticRole.status = none :=
  classify_entry_every_role [] SemanticRole.quantity

/-- Claim C6: the fulfillment rule fires exactly when a column named
"QuantityRem1" is present — an exact string match, not a keyword
heuristic — and when no such column exists the result omits the rule's
entry and no error is raised. -/
theorem rule_fires_iff_sentinel (ds : TabularDataset) :
    ((fulfillmentRule ds).isSome = true ↔ "QuantityRem1" ∈ ds.columns) ∧
    ("QuantityRem1" ∉ ds.columns → fulfillmentRule ds = none) := by
  by_cases h : "QuantityRem1" ∈ ds.columns <;> simp [fulfillmentRule, h]

/-- Concrete instantiation of `rule_fires_iff_sentinel` on a dataset
without the sentinel column. -/
theorem rule_fires_iff_sentinel_witness :
    ((fulfillmentRule ⟨["Menge"], []⟩).isSome = true ↔
      "QuantityRem1" ∈ (⟨["Menge"], []⟩ : TabularDataset).columns) ∧
    ("QuantityRem1" ∉ (⟨["Menge"], []⟩ : TabularDataset).columns →
      fulfillmentRule ⟨["Menge"], []⟩ = none) :=
  rule_fires_iff_sentinel ⟨["Menge"], []⟩

/-- Claim C7: for every dataset and role, the candidate list is the
column sequence in its original declared order filtered to keyword
matches — a sublist of the columns whose members are exactly the matching
names — and classification is deterministic (a pure function of its
input, re-running yields the same output). -/
theorem candidates_filter_order (cols : List String) (r : SemanticRole) :
    (candidatesEA cols r).Sublist cols ∧
    (∀ c, c ∈ candidatesEA cols r ↔
      c ∈ cols ∧ matchesKeywords (keywordsFor r) c = true) ∧
    candidatesEA cols r = candidatesEA cols r := by
  refine ⟨List.filter_sublist cols, fun c => ?_, rfl⟩
  simp [candidatesEA, List.mem_filter]

/-- Claim C8, counterexample: with a non-numeric (text) value in the
sentinel column the code does not produce counts in a strict inequality —
it aborts with TypeError and yields no counts at all. -/
theorem text_value_aborts_counts :
    fulfillmentRule ⟨["QuantityRem1"], [[Value.num 1], [Value.text "x"]]⟩ =
      some (Except.error PyError.typeError) := rfl

/-- Claim C8, amended: whenever the evaluation completes with a finding,
zeroCount + positiveCount is at most total, with equality exactly when
every row's value is present and numerically 0 or positive — any null or
negative value makes the inequality strict, while a non-numeric value
aborts the evaluation instead. -/
theorem counts_le_total_iff (vals : List Value) (f : RuleFinding)
    (h : evalFulfillment vals = Except.ok f) :
    f.zeroCount + f.positiveCount ≤ f.total ∧
    (f.zeroCount + f.positiveCount = f.total ↔ vals.all presentNonneg = true) := by
  rcases evalFulfillment_ok vals f h with ⟨h1, h2, h3, -, -, -, -⟩
  rcases two_filter_le_iff vals with ⟨t1, t2⟩
  rw [h1, h2, h3]
  exact ⟨t1, t2⟩

/-- Concrete instantiation of `counts_le_total_iff` on a two-row column
holding 0 and 3. -/
theorem counts_le_total_iff_witness :
    (⟨1, 1, 2, 50, 50⟩ : RuleFinding).zeroCount +
      (⟨1, 1, 2, 50, 50⟩ : RuleFinding).positiveCount ≤
      (⟨1, 1, 2, 50, 50⟩ : RuleFinding).total ∧
    ((⟨1, 1, 2, 50, 50⟩ : RuleFinding).zeroCount +
        (⟨1, 1, 2, 50, 50⟩ : RuleFinding).positiveCount =
        (⟨1, 1, 2, 50, 50⟩ : RuleFinding).total ↔
      [Value.num 0, Value.num 3].all presentNonneg = true) :=
  counts_le_total_iff [Value.num 0, Value.num 3] ⟨1, 1, 2, 50, 50⟩
    (by norm_num [evalFulfillment, posCountE, seriesGtZeroB, seriesEqZeroB])

/-- Claim C9: on the dataset with columns ArtikelNr, QuantityRem1, Status
and the two scenario rows, the classifier chooses ArtikelNr for
ArticleNumber, QuantityRem1 for Quantity and Status for Status, and the
rule yields zeroCount 1, positiveCount 1, total 2 and both percentages
50. -/
theorem scenario_two_rows :
    chosenEA scenarioDS.columns SemanticRole.articleNumber = some "ArtikelNr" ∧
    chosenEA scenarioDS.columns SemanticRole.quantity = some "QuantityRem1" ∧
    chosenEA scenarioDS.columns SemanticRole.status = some "Status" ∧
    fulfillmentRule scenarioDS = some (Except.ok ⟨1, 1, 2, 50, 50⟩) := by
  refine ⟨by decide, by decide, by decide, ?_⟩
  show some (evalFulfillment (columnValues scenarioDS "QuantityRem1")) = _
  have hcol : columnValues scenarioDS "QuantityRem1" = [Value.num 0, Value.num 5] := by decide
  rw [hcol]
  norm_num [evalFulfillment, posCountE, seriesGtZeroB, seriesEqZeroB]

/-- Claim C10: candidate selection reads only the dataset's column names,
never its row values — two datasets with identical column sequences
classify identically for every role, regardless of their rows — so the
advisory per-column statistics cannot influence candidate choice or
order. -/
theorem candidates_ignore_rows (ds₁ ds₂ : TabularDataset)
    (h : ds₁.columns = ds₂.columns) (r : SemanticRole) :
    classifyDS ds₁ r = classifyDS ds₂ r ∧
    candidatesAF ds₁.columns r = candidatesAF ds₂.columns r := by
  unfold classifyDS
  rw [h]
  exact ⟨rfl, rfl⟩

/-- Concrete instantiation of `candidates_ignore_rows` on two datasets
sharing the column "Menge" but holding different rows. -/
theorem candidates_ignore_rows_witness :
    classifyDS ⟨["Menge"], [[Value.num 1]]⟩ SemanticRole.quantity =
      classifyDS ⟨["Menge"], [[Value.num 7], [Value.null]]⟩ SemanticRole.quantity ∧
    candidatesAF (⟨["Menge"], [[Value.num 1]]⟩ : TabularDataset).columns
        SemanticRole.quantity =
      candidatesAF (⟨["Menge"], [[Value.num 7], [Value.null]]⟩ : TabularDataset).columns
        SemanticRole.quantity :=
  candidates_ignore_rows ⟨["Menge"], [[Value.num 1]]⟩
    ⟨["Menge"], [[Value.num 7], [Value.null]]⟩ rfl SemanticRole.quantity

end ExcelAnalysis
